import Mathlib

/-!
Shallow embedding of the nyaa-si Telegram bot (src/bot.py, src/database.py).

The embedding models the pure decision logic of the handlers: HTML pages and
HTTP responses become explicit data (lists of anchors / table cells), the
per-user `context.user_data` dictionary becomes an explicit `Session` record,
and each handler becomes a function from its inputs (message text, callback
argument, fetched response) to its observable effects (new session state,
reply sent, database writes, network calls).
-/

namespace NyaaBot

/-- A search result record, as built by `NyaaBot.search_nyaa` (bot.py 79-85). -/
structure SearchResult where
  title : String
  url : String
  size : String
  seeders : String
  leechers : String
deriving Repr, DecidableEq

/-- An HTML anchor: its optional `href` attribute and its stripped text. -/
structure Anchor where
  href : Option String
  text : String
deriving Repr, DecidableEq

/-- Per-user transient state held in `context.user_data` (bot.py 306-308).
An absent key reads as the default: empty results, empty query, page 0. -/
structure Session where
  search_results : List SearchResult
  search_query : String
  current_page : Nat
deriving Repr, DecidableEq

/-- The `context.user_data.get(key, default)` values before any search. -/
def initSession : Session := { search_results := [], search_query := "", current_page := 0 }

/-! ### show_results_page (bot.py 313-366) -/

/-- Python `results[start:end]` for `0 <= start` and `end = min(start+5, len)`:
drop `start` elements then take `end - start` (empty when `start >= end`,
matching Python's empty out-of-range slice). -/
def pySlice (xs : List α) (start stop : Nat) : List α :=
  (xs.drop start).take (stop - start)

/-- The truncated-title computation at bot.py 336:
`result['title'][:50] + "..." if len(result['title']) > 50 else result['title']`.
Note: the handler binds this to a local variable that is never used. -/
def truncated_title (t : String) : String :=
  if 50 < t.length then t.take 50 ++ "..." else t

/-- The per-result text line at bot.py 338: `f"**{i + 1}.** {result['title']}\n"`.
It interpolates `result['title']`, not the truncated local. -/
def result_line (i : Nat) (r : SearchResult) : String :=
  "**" ++ toString (i + 1) ++ ".** " ++ r.title ++ "\n"

/-- The observable content of one rendered results page: the header numbers,
the per-result lines, the `get_magnet:i` button payloads, and the `page:n`
payloads of the Previous / Next buttons when present. -/
structure Rendered where
  query : String
  page : Nat
  start_idx : Nat
  end_idx : Nat
  total : Nat
  shown : List (Nat × SearchResult)
  lines : List String
  magnetActions : List Nat
  navPrev : Option Nat
  navNext : Option Nat
deriving Repr, DecidableEq

/-- Outcome of `show_results_page`: either the "❌ No results to display."
edit (bot.py 318-320) or a rendered page. -/
inductive ShowOutcome where
  | noResults
  | page (r : Rendered)
deriving Repr, DecidableEq

/-- `per_page = 5` (bot.py 323). -/
def per_page : Nat := 5

/-- `show_results_page(message, context, page)` (bot.py 313-366), as a function
of the session's stored results and query and the requested page. -/
def show_results_page (results : List SearchResult) (query : String) (page : Nat) :
    ShowOutcome :=
  if results = [] then .noResults
  else
    let start_idx := page * per_page
    let end_idx := min (start_idx + per_page) results.length
    let page_results := pySlice results start_idx end_idx
    let shown := List.enumFrom start_idx page_results
    .page {
      query := query
      page := page
      start_idx := start_idx
      end_idx := end_idx
      total := results.length
      shown := shown
      lines := shown.map fun p => result_line p.1 p.2
      magnetActions := shown.map Prod.fst
      navPrev := if 0 < page then some (page - 1) else none
      navNext := if end_idx < results.length then some (page + 1) else none
    }

/-- Project the rendered lines out of a `ShowOutcome` (empty when no page). -/
def outcomeLines : ShowOutcome → List String
  | .noResults => []
  | .page r => r.lines

/-! ### button_handler, page branch (bot.py 410-413)

`context.user_data['current_page'] = page` runs before `show_results_page`,
with no range check on the requested page. -/

/-- The `page:` branch of `button_handler`. -/
def handle_page (s : Session) (page : Nat) : Session × ShowOutcome :=
  let s' := { s with current_page := page }
  (s', show_results_page s'.search_results s'.search_query page)

/-! ### search_handler (bot.py 271-311) -/

/-- Replies that `search_handler` can send. -/
inductive Reply where
  | emptyQueryError
  | noResultsMsg
  | resultsPage (o : ShowOutcome)
deriving Repr, DecidableEq

/-- Python `text.strip()`: remove leading and trailing whitespace characters
(bot.py 274). -/
def pyStrip (s : String) : String :=
  String.mk ((s.data.dropWhile Char.isWhitespace).reverse.dropWhile Char.isWhitespace).reverse

/-- Observable effects of one `search_handler` run. `fetched` is the value
returned by `nyaa_bot.search_nyaa(query)` (`none` models the `None` returned on
network failure / non-200); `networkCalled` records whether that call was made;
`savedSearches` are the `db.save_search(user, query, count)` writes. -/
structure SearchHandlerOut where
  session : Session
  reply : Reply
  savedSearches : List (String × Nat)
  networkCalled : Bool
deriving Repr, DecidableEq

/-- `search_handler` (bot.py 271-311). `query = text.strip()`; empty query is
rejected before any network or database activity. `if not results:` covers both
`None` and `[]`: the message is edited, a zero-count search is saved, and the
handler returns WITHOUT touching `context.user_data`. Only on a non-empty
result list are the three session keys assigned and page 0 shown. -/
def search_handler (text : String) (s : Session)
    (fetched : Option (List SearchResult)) : SearchHandlerOut :=
  let query := pyStrip text
  if query = "" then
    { session := s, reply := .emptyQueryError, savedSearches := [], networkCalled := false }
  else
    match fetched with
    | none =>
        { session := s, reply := .noResultsMsg, savedSearches := [(query, 0)],
          networkCalled := true }
    | some [] =>
        { session := s, reply := .noResultsMsg, savedSearches := [(query, 0)],
          networkCalled := true }
    | some results =>
        let s' : Session :=
          { search_results := results, search_query := query, current_page := 0 }
        { session := s'
          reply := .resultsPage (show_results_page results query 0)
          savedSearches := [(query, results.length)]
          networkCalled := true }

/-! ### get_magnet_handler (bot.py 419-439) -/

/-- Python list indexing `xs[i]` for an `int` index: a non-negative index reads
position `i`; a negative index reads position `len + i` when `-len <= i`, and
raises `IndexError` otherwise (modelled as `none`). -/
def pyIndex (xs : List α) (i : Int) : Option α :=
  if 0 ≤ i then xs[i.toNat]?
  else if i.natAbs ≤ xs.length then xs[xs.length - i.natAbs]?
  else none

/-- Observable outcome of `get_magnet_handler` up to the magnet fetch:
the "❌ Invalid selection!" rejection (bot.py 424-426, no fetch), an uncaught
`IndexError` from `results[result_idx]` (propagates to the dispatcher's
error handler), or a magnet fetch performed for the given result's URL. -/
inductive MagnetOutcome where
  | invalidSelection
  | indexError
  | fetch (r : SearchResult)
deriving Repr, DecidableEq

/-- `get_magnet_handler(query, context, result_idx)` (bot.py 419-439): the guard
is only `result_idx >= len(results)`; an index passing the guard is used as a
Python index into `results`, so a negative index wraps around. -/
def get_magnet_handler (s : Session) (result_idx : Int) : MagnetOutcome :=
  let results := s.search_results
  if (results.length : Int) ≤ result_idx then .invalidSelection
  else
    match pyIndex results result_idx with
    | some r => .fetch r
    | none => .indexError

/-! ### get_magnet_link (bot.py 96-113) -/

/-- What the detail-page fetch can yield: an exception during request/parse
(timeout, connection error, ...) or a parsed page, i.e. its HTTP status and its
anchors in document order. -/
inductive FetchResult where
  | netError
  | ok (status : Nat) (anchors : List Anchor)
deriving Repr, DecidableEq

/-- Python `s.startswith(pre)`, over the character sequences. -/
def pyStartsWith (s pre : String) : Bool :=
  pre.data.isPrefixOf s.data

/-- The predicate of `soup.find('a', href=lambda x: x and x.startswith('magnet:'))`:
an anchor with an `href` attribute whose value starts with `magnet:`. -/
def isMagnetAnchor (a : Anchor) : Bool :=
  match a.href with
  | some h => pyStartsWith h "magnet:"
  | none => false

/-- `NyaaBot.get_magnet_link(url)` (bot.py 96-113): `None` on exception or
non-200 status; otherwise the `href` of the first `magnet:` anchor, or `None`
when there is none. The surrounding `try/except` maps every exception to
`None`, so in the model every input yields a value. -/
def get_magnet_link (resp : FetchResult) : Option String :=
  match resp with
  | .netError => none
  | .ok status anchors =>
      if status ≠ 200 then none
      else
        match anchors.find? isMagnetAnchor with
        | some tag => tag.href
        | none => none

/-! ### search_nyaa row parsing (bot.py 58-90) -/

/-- One `<tr>` of the results table: its anchors in document order and the
stripped text of its `<td>` cells in document order (`td:nth-of-type(k)` is
entry `k - 1`, absent when the row has fewer cells). -/
structure Row where
  anchors : List Anchor
  tds : List String
deriving Repr, DecidableEq

/-- The predicate of `row.find("a", href=lambda x: x and x.startswith("/view/"))`. -/
def isViewAnchor (a : Anchor) : Bool :=
  match a.href with
  | some h => pyStartsWith h "/view/"
  | none => false

/-- The per-row extraction of `search_nyaa` (bot.py 59-88): skip the row when it
has no `/view/` anchor; otherwise build the record, defaulting a missing 4th
cell to "Unknown" and missing 6th / 7th cells to "0". (A found anchor always
has an `href`, so the inner `none` branch — Python's `KeyError`, caught by the
per-row `except` and turned into a skip — is unreachable.) -/
def parse_row (row : Row) : Option SearchResult :=
  match row.anchors.find? isViewAnchor with
  | none => none
  | some link_tag =>
      match link_tag.href with
      | none => none
      | some h =>
          some { title := link_tag.text
                 url := "https://nyaa.si" ++ h
                 size := row.tds[3]?.getD "Unknown"
                 seeders := row.tds[5]?.getD "0"
                 leechers := row.tds[6]?.getD "0" }

/-- The result list built from the table's rows (the `for row in ...` loop). -/
def parse_rows (rows : List Row) : List SearchResult :=
  rows.filterMap parse_row

end NyaaBot

namespace NyaaDb

/-- A Python `datetime`'s calendar fields (the `hour=0, minute=0, ...` reset
performed first by `get_popular_searches` does not affect the date part). -/
structure PyDate where
  year : Nat
  month : Nat
  day : Nat
deriving Repr, DecidableEq

/-- Gregorian leap-year rule, as used by Python's `datetime` validation. -/
def isLeap (y : Nat) : Bool :=
  (y % 4 = 0 && y % 100 ≠ 0) || y % 400 = 0

/-- Days in a month, as used by Python's `datetime` validation. -/
def daysInMonth (y m : Nat) : Nat :=
  if m = 2 then (if isLeap y then 29 else 28)
  else if m = 4 ∨ m = 6 ∨ m = 9 ∨ m = 11 then 30
  else 31

/-- `datetime.replace(day=d)`: Python validates that `d` is at least 1 and at
most the number of days in the month, and raises `ValueError` otherwise. -/
def replace_day (dt : PyDate) (d : Int) : Except String PyDate :=
  if 1 ≤ d ∧ d ≤ (daysInMonth dt.year dt.month : Int) then
    .ok { dt with day := d.toNat }
  else
    .error "day is out of range for month"

/-- The cutoff computation of `DatabaseManager.get_popular_searches`
(database.py 142-143): `from_date.replace(day=from_date.day - days)`,
a naive day-of-month subtraction. -/
def get_popular_searches_cutoff (now : PyDate) (days : Nat) : Except String PyDate :=
  replace_day now ((now.day : Int) - (days : Int))

end NyaaDb

namespace NyaaBot

/-- A concrete search result used to evaluate the handlers on explicit data. -/
def sampleResult (n : Nat) : SearchResult :=
  { title := "t" ++ toString n
    url := "https://nyaa.si/view/" ++ toString n
    size := "1.0 GiB"
    seeders := "12"
    leechers := "3" }

/-- A concrete result list of length `n`. -/
def sampleResults (n : Nat) : List SearchResult :=
  (List.range n).map sampleResult

/-- A concrete session holding one stored result from an earlier search. -/
def staleSession : Session :=
  { search_results := [sampleResult 0], search_query := "old", current_page := 0 }

/-- A 60-character title, longer than the 50-character truncation bound. -/
def longTitle : String := String.mk (List.replicate 60 'a')

/-- A concrete table row that has the `/view/` detail anchor but only three
`<td>` cells, so its 4th, 6th and 7th cells are all missing. -/
def sampleRow : Row :=
  { anchors := [{ href := some "/view/123", text := "Title" }]
    tds := ["cat", "title cell", "links"] }

end NyaaBot

open NyaaBot NyaaDb

/-- Claim C1: for a stored result list of length `N > 0` and a page index `k`
with `k * 5 < N`, rendering page `k` displays exactly the results at global
positions `[k*5, min (k*5+5) N)`, each keyed by its global index; a Previous
action is offered iff `k > 0` and a Next action iff `(k+1)*5 < N`. -/
theorem C1_pagination_correct (results : List SearchResult) (q : String) (k : Nat)
    (h : k * 5 < results.length) :
    ∃ r, show_results_page results q k = .page r ∧
      r.shown.map Prod.snd =
        (results.drop (k * 5)).take (min (k * 5 + 5) results.length - k * 5) ∧
      r.shown.map Prod.fst =
        List.range' (k * 5) (min (k * 5 + 5) results.length - k * 5) ∧
      (r.navPrev.isSome ↔ 0 < k) ∧
      (r.navNext.isSome ↔ (k + 1) * 5 < results.length) := by
  have hne : results ≠ [] := by
    intro he
    rw [he] at h
    simp at h
  unfold show_results_page per_page
  rw [if_neg hne]
  refine ⟨_, rfl, ?_, ?_, ?_, ?_⟩
  · rw [List.enumFrom_map_snd]
    simp [pySlice]
  · rw [List.enumFrom_map_fst]
    simp only [pySlice, List.length_take, List.length_drop]
    congr 1
    omega
  · by_cases hk : 0 < k <;> simp [hk]
  · by_cases hn : min (k * 5 + 5) results.length < results.length
    · simp only [if_pos hn]
      simp only [Option.isSome_some, true_iff]
      omega
    · simp only [if_neg hn]
      simp only [Option.isSome_none, Bool.false_eq_true, false_iff]
      omega

/-- Claim C1 witness: seven results, page 1 shows global positions 5 and 6,
with a Previous action and no Next action. -/
theorem C1_pagination_correct_witness :
    1 * 5 < (sampleResults 7).length ∧
    (∃ r, show_results_page (sampleResults 7) "naruto" 1 = .page r ∧
      r.shown.map Prod.snd =
        ((sampleResults 7).drop (1 * 5)).take
          (min (1 * 5 + 5) (sampleResults 7).length - 1 * 5) ∧
      r.shown.map Prod.fst =
        List.range' (1 * 5) (min (1 * 5 + 5) (sampleResults 7).length - 1 * 5) ∧
      (r.navPrev.isSome ↔ 0 < 1) ∧
      (r.navNext.isSome ↔ (1 + 1) * 5 < (sampleResults 7).length)) :=
  ⟨by decide, C1_pagination_correct (sampleResults 7) "naruto" 1 (by decide)⟩

/-- Claim C2 counterexample: starting from the session reached by a search that
stored exactly one result, the `page:2` callback (a stale Next button from an
earlier, longer result list) is processed by `button_handler`, which sets
`current_page` to 2 — so the request is neither rejected nor ignored, and the
reached state has a non-empty result list with `current_page * 5 = 10 ≥ 1`,
violating the claimed invariant. -/
theorem C2_invariant_counterexample :
    (handle_page (search_handler "q" initSession (some [sampleResult 0])).session 2).1.current_page
        = 2 ∧
    (handle_page (search_handler "q" initSession (some [sampleResult 0])).session 2).1.search_results
        ≠ [] ∧
    ¬ ((handle_page (search_handler "q" initSession (some [sampleResult 0])).session 2).1.current_page * 5
        < (handle_page (search_handler "q" initSession (some [sampleResult 0])).session 2).1.search_results.length) := by
  decide

/-- Claim C2 amended: an out-of-range `page:p` request (with a non-empty stored
result list and `p * 5 ≥ len`) is processed without raising: `current_page` IS
set to the requested `p` (so the invariant `current_page * 5 < len` can be
broken by a stale button), and the handler renders a page with no result
entries, no magnet actions and no Next action. -/
theorem C2_out_of_range_amended (s : Session) (p : Nat)
    (hne : s.search_results ≠ []) (hout : s.search_results.length ≤ p * 5) :
    (handle_page s p).1 = { s with current_page := p } ∧
    ∃ r, (handle_page s p).2 = .page r ∧ r.shown = [] ∧ r.magnetActions = [] ∧
      r.navNext = none := by
  constructor
  · rfl
  · unfold handle_page show_results_page per_page
    simp only
    rw [if_neg hne]
    refine ⟨_, rfl, ?_, ?_, ?_⟩
    · simp [pySlice, List.drop_eq_nil_of_le hout]
    · simp [pySlice, List.drop_eq_nil_of_le hout]
    · have : ¬ min (p * 5 + 5) s.search_results.length < s.search_results.length := by
        omega
      simp only [if_neg this]

/-- Claim C2 amended, witness: a one-result session and the stale `page:2`
request. -/
theorem C2_out_of_range_amended_witness :
    (staleSession.search_results ≠ [] ∧ staleSession.search_results.length ≤ 2 * 5) ∧
    ((handle_page staleSession 2).1 = { staleSession with current_page := 2 } ∧
      ∃ r, (handle_page staleSession 2).2 = .page r ∧ r.shown = [] ∧
        r.magnetActions = [] ∧ r.navNext = none) :=
  ⟨⟨by decide, by decide⟩,
    C2_out_of_range_amended staleSession 2 (by decide) (by decide)⟩

/-- Claim C3 counterexample: a session holding one result from an earlier
search, followed by a new search whose fetch returns the empty list: the
handler leaves the session untouched, so the old result list (non-empty)
survives, contradicting wholesale replacement. -/
theorem C3_stale_results_counterexample :
    (search_handler "new" staleSession (some [])).session = staleSession ∧
    staleSession.search_results ≠ [] := by
  decide

/-- Claim C3 amended: on a search with a non-empty fetched result list the
session is replaced wholesale (new results, new query, page 0); but when the
fetch fails (`None`) or returns an empty list, the handler returns early and
the previous session — including any old results and page — survives
unchanged. -/
theorem C3_session_replacement_amended (text : String) (s : Session)
    (fetched : Option (List SearchResult)) (h : pyStrip text ≠ "") :
    (∀ rs, fetched = some rs → rs ≠ [] →
        (search_handler text s fetched).session =
          { search_results := rs, search_query := pyStrip text, current_page := 0 }) ∧
    (fetched = none ∨ fetched = some [] →
        (search_handler text s fetched).session = s) := by
  constructor
  · intro rs hf hrs
    subst hf
    cases rs with
    | nil => exact absurd rfl hrs
    | cons a t => simp [search_handler, h]
  · intro hf
    rcases hf with hf | hf <;> subst hf <;> simp [search_handler, h]

/-- Claim C3 amended, witness: a successful two-result search replaces the
stale one-result session wholesale. -/
theorem C3_session_replacement_amended_witness :
    pyStrip "new" ≠ "" ∧
    (search_handler "new" staleSession (some (sampleResults 2))).session =
      { search_results := sampleResults 2, search_query := pyStrip "new",
        current_page := 0 } :=
  ⟨by decide,
    (C3_session_replacement_amended "new" staleSession (some (sampleResults 2))
      (by decide)).1 (sampleResults 2) rfl (by decide)⟩

/-- Claim C4 counterexample: a `get_magnet:-1` callback against a one-result
session passes the handler's only guard (`result_idx >= len(results)`), is NOT
rejected, and a magnet fetch is performed — for the result at position 0, which
Python's negative indexing selects as the last element. -/
theorem C4_negative_index_counterexample :
    get_magnet_handler staleSession (-1) = .fetch (sampleResult 0) := by
  decide

/-- Claim C4 amended: for `0 ≤ i < len` the handler fetches exactly the result
stored at position `i`, whatever page is displayed; for `i ≥ len` it replies
"Invalid selection!" and performs no fetch; but a negative `i` is not rejected:
for `-len ≤ i < 0` the handler fetches the result at position `len + i`
(Python wrap-around), and for `i < -len` the subscript raises `IndexError`. -/
theorem C4_selection_amended (rs : List SearchResult) (q : String) (cp : Nat)
    (i : Int) :
    (∀ r, 0 ≤ i → rs[i.toNat]? = some r →
        get_magnet_handler ⟨rs, q, cp⟩ i = .fetch r) ∧
    ((rs.length : Int) ≤ i → get_magnet_handler ⟨rs, q, cp⟩ i = .invalidSelection) ∧
    (∀ r, i < 0 → i.natAbs ≤ rs.length → rs[rs.length - i.natAbs]? = some r →
        get_magnet_handler ⟨rs, q, cp⟩ i = .fetch r) ∧
    (i < 0 → rs.length < i.natAbs → get_magnet_handler ⟨rs, q, cp⟩ i = .indexError) := by
  refine ⟨?_, ?_, ?_, ?_⟩
  · intro r hi hget
    have hlt : i.toNat < rs.length := by
      rcases List.getElem?_eq_some.mp hget with ⟨hl, _⟩
      exact hl
    have hguard : ¬ ((rs.length : Int) ≤ i) := by omega
    simp [get_magnet_handler, pyIndex, hguard, hi, hget]
  · intro hle
    simp [get_magnet_handler, hle]
  · intro r hneg habs hget
    have hguard : ¬ ((rs.length : Int) ≤ i) := by omega
    have h0 : ¬ (0 ≤ i) := by omega
    simp [get_magnet_handler, pyIndex, hguard, h0, habs, hget]
  · intro hneg habs
    have hguard : ¬ ((rs.length : Int) ≤ i) := by omega
    have h0 : ¬ (0 ≤ i) := by omega
    have habs2 : ¬ (i.natAbs ≤ rs.length) := by omega
    simp [get_magnet_handler, pyIndex, hguard, h0, habs2]

/-- Claim C4 amended, witness: in-range index 1 of a two-result list fetches
the result stored at position 1. -/
theorem C4_selection_amended_witness :
    get_magnet_handler ⟨sampleResults 2, "q", 0⟩ 1 = .fetch (sampleResult 1) :=
  (C4_selection_amended (sampleResults 2) "q" 0 1).1 (sampleResult 1)
    (by decide) (by decide)

/-- Claim C5: `get_magnet_link` returns `None` on an exception during the
fetch, on a non-200 status, and on a page with no `magnet:` anchor; on a 200
page whose first `magnet:` anchor is `a` it returns `a`'s `href`. Exceptions
never escape: every input of the model yields a value. -/
theorem C5_magnet_extraction (st : Nat) (anchors pre post : List Anchor)
    (a : Anchor) :
    get_magnet_link .netError = none ∧
    (st ≠ 200 → get_magnet_link (.ok st anchors) = none) ∧
    ((∀ b ∈ anchors, isMagnetAnchor b = false) →
        get_magnet_link (.ok st anchors) = none) ∧
    ((∀ b ∈ pre, isMagnetAnchor b = false) → isMagnetAnchor a = true →
        get_magnet_link (.ok 200 (pre ++ a :: post)) = a.href) := by
  refine ⟨rfl, ?_, ?_, ?_⟩
  · intro hst
    simp [get_magnet_link, hst]
  · intro hnone
    have hfind : anchors.find? isMagnetAnchor = none :=
      List.find?_eq_none.mpr fun x hx => by simp [hnone x hx]
    by_cases hst : st = 200
    · subst hst
      simp [get_magnet_link, hfind]
    · simp [get_magnet_link, hst]
  · intro hpre ha
    have hfind : pre.find? isMagnetAnchor = none :=
      List.find?_eq_none.mpr fun x hx => by simp [hpre x hx]
    simp [get_magnet_link, List.find?_append, hfind,
      List.find?_cons_of_pos _ ha]

/-- Claim C5 witness: a 200 page whose anchors are a non-magnet anchor followed
by a magnet anchor yields that magnet anchor's `href`. -/
theorem C5_magnet_extraction_witness :
    (∀ b ∈ [Anchor.mk none "x"], isMagnetAnchor b = false) ∧
    isMagnetAnchor ⟨some "magnet:?xt=urn", "dl"⟩ = true ∧
    get_magnet_link
        (.ok 200 ([Anchor.mk none "x"] ++ Anchor.mk (some "magnet:?xt=urn") "dl" :: []))
      = some "magnet:?xt=urn" :=
  ⟨by decide, by decide,
    (C5_magnet_extraction 200 [] [Anchor.mk none "x"] []
      ⟨some "magnet:?xt=urn", "dl"⟩).2.2.2 (by decide) (by decide)⟩

/-- Claim C6: a row with the `/view/` detail anchor is parsed into a record
even when cells are missing: an absent 4th cell gives `size = "Unknown"`,
absent 6th / 7th cells give `"0"`, and the record appears in the output of
parsing any row list containing the row. -/
theorem C6_missing_cell_defaults (row : Row) (a : Anchor) (h : String)
    (hfind : row.anchors.find? isViewAnchor = some a) (hhref : a.href = some h) :
    ∃ r, parse_row row = some r ∧
      (row.tds[3]? = none → r.size = "Unknown") ∧
      (row.tds[5]? = none → r.seeders = "0") ∧
      (row.tds[6]? = none → r.leechers = "0") ∧
      (∀ rows, row ∈ rows → r ∈ parse_rows rows) := by
  have hp : parse_row row =
      some { title := a.text
             url := "https://nyaa.si" ++ h
             size := row.tds[3]?.getD "Unknown"
             seeders := row.tds[5]?.getD "0"
             leechers := row.tds[6]?.getD "0" } := by
    simp [parse_row, hfind, hhref]
  refine ⟨_, hp, ?_, ?_, ?_, ?_⟩
  · intro h3
    simp [h3]
  · intro h5
    simp [h5]
  · intro h6
    simp [h6]
  · intro rows hr
    exact List.mem_filterMap.mpr ⟨row, hr, hp⟩

/-- Claim C6 witness: a row with the detail anchor and only three cells yields
a record with all three defaults, included in the parsed output. -/
theorem C6_missing_cell_defaults_witness :
    (sampleRow.anchors.find? isViewAnchor = some ⟨some "/view/123", "Title"⟩ ∧
      (Anchor.mk (some "/view/123") "Title").href = some "/view/123") ∧
    (∃ r, parse_row sampleRow = some r ∧
      (sampleRow.tds[3]? = none → r.size = "Unknown") ∧
      (sampleRow.tds[5]? = none → r.seeders = "0") ∧
      (sampleRow.tds[6]? = none → r.leechers = "0") ∧
      (∀ rows, sampleRow ∈ rows → r ∈ parse_rows rows)) :=
  ⟨⟨by decide, rfl⟩,
    C6_missing_cell_defaults sampleRow ⟨some "/view/123", "Title"⟩ "/view/123"
      (by decide) rfl⟩

/-- Claim C7: a message whose text is empty or whitespace-only after stripping
is rejected with the validation reply; the session is untouched, no search is
recorded, and no network request is made. -/
theorem C7_empty_query_rejected (text : String) (s : Session)
    (fetched : Option (List SearchResult)) (h : pyStrip text = "") :
    search_handler text s fetched =
      { session := s, reply := .emptyQueryError, savedSearches := [],
        networkCalled := false } := by
  simp [search_handler, h]

/-- Claim C7 witness: the whitespace-only message "   ". -/
theorem C7_empty_query_rejected_witness :
    pyStrip "   " = "" ∧
    search_handler "   " staleSession (some (sampleResults 3)) =
      { session := staleSession, reply := .emptyQueryError, savedSearches := [],
        networkCalled := false } :=
  ⟨by decide,
    C7_empty_query_rejected "   " staleSession (some (sampleResults 3)) (by decide)⟩

/-- Claim C8: `get_popular_searches` computes its cutoff as
`from_date.replace(day=from_date.day - days)`; with the default 7-day window,
any invocation on a day-of-month of at most 7 asks `replace` for a
day `≤ 0`, which is out of range, so the computation fails with `ValueError`
instead of producing a calendar-correct date. -/
theorem C8_popular_searches_day_underflow (now : PyDate) (h : now.day ≤ 7) :
    get_popular_searches_cutoff now 7 = .error "day is out of range for month" := by
  unfold get_popular_searches_cutoff replace_day
  rw [if_neg]
  intro hc
  rcases hc with ⟨h1, _⟩
  omega

/-- Claim C8 witness: 2026-03-05, day-of-month 5. -/
theorem C8_popular_searches_day_underflow_witness :
    (PyDate.mk 2026 3 5).day ≤ 7 ∧
    get_popular_searches_cutoff ⟨2026, 3, 5⟩ 7 =
      .error "day is out of range for month" :=
  ⟨by decide, C8_popular_searches_day_underflow ⟨2026, 3, 5⟩ (by decide)⟩

set_option maxRecDepth 8000 in
/-- Claim C9 (divergence witness): rendering a result whose title has 60
characters produces a line containing the FULL title — the truncated form
computed at bot.py 336 is bound to a local that line 338 never uses, so no
50-character bound or ellipsis is applied to the displayed line. -/
theorem C9_full_title_rendered :
    outcomeLines (show_results_page
        [{ title := longTitle, url := "u", size := "s", seeders := "1",
           leechers := "0" }] "q" 0) =
      ["**1.** " ++ longTitle ++ "\n"] ∧
    longTitle.length = 60 ∧
    truncated_title longTitle ≠ longTitle := by
  decide

/-- Claim C10: a `page:` callback (page navigation or Back-to-Results, both of
which carry a `page:n` payload) arriving while the session stores no results
makes the handler edit the message to the no-results notice and return: no
result page is rendered and nothing is raised. -/
theorem C10_no_results_notice (s : Session) (p : Nat)
    (h : s.search_results = []) :
    (handle_page s p).2 = .noResults := by
  simp [handle_page, show_results_page, h]

/-- Claim C10 witness: a `page:4` callback against the pristine session. -/
theorem C10_no_results_notice_witness :
    initSession.search_results = [] ∧ (handle_page initSession 4).2 = .noResults :=
  ⟨rfl, C10_no_results_notice initSession 4 rfl⟩
